import Mathlib

/-!
Shallow embedding of `piu/cli.py` (the `piu` SSH-access request tool).

The embedding models the pure decision logic of the single module
`src/piu/cli.py`: the `[USER]@HOST` argument parsing, the bastion routing
resolution, the service-URL normalization, the JSON request body
construction, the TLS-verification resolution, and the keyring update
performed after the HTTP response arrives.  External collaborators
(`yaml.safe_load`, the HTTP transport, `zign` token acquisition, the OS
keyring) are modelled by their observable inputs/outputs: the HTTP status
code is a parameter, the single POST the program issues is reified as a
record, and the keyring writes are reified as data.
-/

namespace Piu

/-- Python truthiness of an optional string (`None` and `''` are falsy).
Used for `if odd_host:`, `if remote_host:` and `x or y` in the source. -/
def truthy : Option String → Bool
  | none => false
  | some s => s ≠ ""

/-- Python `x or y` on optional strings: `y` when `x` is falsy (`None`/`''`). -/
def pyOr (a b : Option String) : Option String :=
  if truthy a then a else b

/-- Python truthiness of the optional `lifetime` integer (`None` and `0` falsy). -/
def truthyNat : Option Nat → Bool
  | none => false
  | some n => n ≠ 0

/-- Python `str.split(sep)` for a single-character separator, on the
character list of the string: splits at every occurrence of `sep`,
keeping empty fields, and yields one more field than there are
separators (`''.split('@') == ['']`). -/
def splitChar (sep : Char) : List Char → List (List Char)
  | [] => [[]]
  | c :: rest =>
    match splitChar sep rest with
    | [] => [[]]
    | g :: gs => if c = sep then [] :: g :: gs else (c :: g) :: gs

/-- `host.split('@')` from line 117, as a list of strings. -/
def pySplit (sep : Char) (s : String) : List String :=
  (splitChar sep s.toList).map (fun l => ⟨l⟩)

/-- Lines 117-121: `username = parts[0] if len(parts) > 1 else user`. -/
def cliUsername (host user : String) : String :=
  let parts := pySplit '@' host
  if parts.length > 1 then parts.headD "" else user

/-- Line 123: `hostname = parts[-1]`. -/
def cliHostname (host : String) : String :=
  (pySplit '@' host).getLastD ""

/-- Python `str.startswith` for a literal ASCII prefix string. -/
def startswith (s pre : String) : Bool :=
  List.isPrefixOf pre.toList s.toList

/-- Python `str.endswith` for a literal ASCII suffix string. -/
def endswith (s suf : String) : Bool :=
  List.isSuffixOf suf.toList s.toList

/-- Python `str.rstrip('/')`: remove every trailing `'/'`. -/
def rstripSlashes (s : String) : String :=
  ⟨(s.toList.reverse.dropWhile (fun c => c == '/')).reverse⟩

/-- Lines 169-170: `if not even_url.endswith('/access-requests'):
even_url = even_url.rstrip('/') + '/access-requests'`. -/
def normalizeEvenUrl (even_url : String) : String :=
  if endswith even_url "/access-requests" then even_url
  else rstripSlashes even_url ++ "/access-requests"

/-- One dotted-quad octet, after CPython `ipaddress._parse_octet`: a
non-empty run of at most three decimal digits, no leading zero, value
at most 255. -/
def parseOctet (l : List Char) : Option Nat :=
  if l = [] then none
  else if ¬ l.all (fun c => c.isDigit) then none
  else if l.length > 3 then none
  else if l.length > 1 ∧ l.headD '0' = '0' then none
  else
    let n := l.foldl (fun acc c => acc * 10 + (c.toNat - 48)) 0
    if n > 255 then none else some n

/-- Line 126, `ipaddress.ip_address(hostname)`, modelled for the IPv4
form as the 32-bit integer value of a dotted-quad literal (CPython
`_ip_int_from_string`: exactly four octets separated by `'.'`).  A
hostname that is an IPv6 literal parses in Python but can never lie in
the IPv4 network `172.31.0.0/16` (`IPv4Network.__contains__` is `False`
across versions), so for the STUPS membership test below the IPv6 case
coincides with a parse failure and is folded into `none`. -/
def ip_address (s : String) : Option Nat :=
  match (splitChar '.' s.toList).mapM parseOctet with
  | some [a, b, c, d] => some (((a * 256 + b) * 256 + c) * 256 + d)
  | _ => none

/-- Line 34: `STUPS_CIDR = ipaddress.ip_network('172.31.0.0/16')`,
as its 32-bit network address together with the prefix length 16. -/
def STUPS_network : Nat := ((172 * 256 + 31) * 256 + 0) * 256 + 0

def STUPS_prefixlen : Nat := 16

/-- `ip in STUPS_CIDR`: the address agrees with the network address on
the leading `STUPS_prefixlen` bits. -/
def inStups (a : Nat) : Bool :=
  a / 2 ^ (32 - STUPS_prefixlen) == STUPS_network / 2 ^ (32 - STUPS_prefixlen)

/-- Condition of the bastion prompt loop, line 153:
`while ip and ip in STUPS_CIDR and not odd_host` (an `IPv4Address`
object is always truthy, so `ip` is truthy exactly when parsing
succeeded). -/
def bastionPromptRequired (hostname : String) (odd_host : Option String) : Bool :=
  (match ip_address hostname with
   | some a => inStups a
   | none => false) && ! truthy odd_host

/-- Lines 153-160: the bastion prompt loop, as a function from the
`or`-resolved `odd_host` of line 137 to the value `odd_host` holds when
the loop exits and routing starts.  When the guard
(`bastionPromptRequired`) is false the body never runs and `odd_host` is
unchanged; when it is true the loop prompts repeatedly, discarding
entries that fail DNS resolution, and the guard can only fall once a
truthy entry is accepted — `promptedOdd` stands for that eventually
accepted bastion hostname (every terminating real run corresponds to
some such value). -/
def promptLoopOddHost (hostname : String) (odd_host : Option String)
    (promptedOdd : String) : Option String :=
  if bastionPromptRequired hostname odd_host then some promptedOdd else odd_host

/-- The persisted configuration mapping (keys read by `cli`): `even_url`,
`odd_host`, `cacert`.  The `cacert` value is consumed only as the
`verify` argument of `requests.post`, modelled as a boolean. -/
structure Config where
  even_url : Option String
  odd_host : Option String
  cacert : Option Bool

/-- The empty configuration dict `{}`. -/
def emptyConfig : Config := ⟨none, none, none⟩

/-- Outcome of `yaml.safe_load` on a present config file, standing in
for the file's bytes: malformed YAML makes `safe_load` raise
(`raiseErr`), well-formed YAML yields either a non-mapping value or a
mapping. -/
inductive YamlLoadResult where
  | raiseErr
  | nonDict
  | dict (c : Config)

/-- Lines 37-45, `load_config(path)`.  The filesystem is the argument:
`none` for a missing file (`os.path.exists` false), `some r` for a
present file whose `yaml.safe_load` outcome is `r`.  There is no
`try`/`except` around `safe_load`, so a YAML parse error propagates to
the caller; only the non-mapping case is coerced to `{}`. -/
def load_config (file : Option YamlLoadResult) : Except String Config :=
  match file with
  | none => .ok emptyConfig
  | some .raiseErr => .error "yaml.YAMLError"
  | some .nonDict => .ok emptyConfig
  | some (.dict c) => .ok c

/-- Lines 172-183: resolve the first hop and the remote host from the
target hostname and the (already `or`-resolved) bastion `odd_host`. -/
def resolveRoute (hostname : String) (odd_host : Option String) : String × Option String :=
  let first_host := hostname
  let remote_host := hostname
  let first_host := if truthy odd_host then odd_host.getD "" else first_host
  if first_host = remote_host then (first_host, none)
  else if startswith remote_host "odd-" then (remote_host, none)
  else (first_host, some remote_host)

/-- A JSON value occurring in the request body. -/
inductive JVal where
  | s (v : String)
  | n (v : Nat)
deriving DecidableEq

/-- Lines 64-70: the JSON body as an insertion-ordered association list.
`remote_host` is added only when truthy, `lifetime_minutes` only when
the lifetime is truthy. -/
def requestBody (username hostname reason : String) (remote_host : Option String)
    (lifetime : Option Nat) : List (String × JVal) :=
  [("username", JVal.s username), ("hostname", JVal.s hostname), ("reason", JVal.s reason)]
    ++ (if truthy remote_host then [("remote_host", JVal.s (remote_host.getD ""))] else [])
    ++ (if truthyNat lifetime then [("lifetime_minutes", JVal.n (lifetime.getD 0))] else [])

/-- The single HTTP POST issued by `request_access` (lines 75-78). -/
structure HttpRequest where
  url : String
  verify : Bool
  contentType : String
  authorization : String
  body : List (String × JVal)
deriving DecidableEq

/-- Lines 81-86: the rendered SSH command; the inner jump clause is
present only when `remote_host` is truthy, and the outer format string
always ends with a space before the (possibly empty) inner clause. -/
def sshCommand (username hostname : String) (remote_host : Option String) : String :=
  let ssh_command :=
    if truthy remote_host then
      "ssh -o StrictHostKeyChecking=no " ++ username ++ "@" ++ remote_host.getD ""
    else ""
  "ssh -tA " ++ username ++ "@" ++ hostname ++ " " ++ ssh_command

/-- Line 27: `KEYRING_KEY = 'piu'`. -/
def KEYRING_KEY : String := "piu"

/-- Lines 188-193: the keyring write performed after the request, as a
function of the HTTP status: `some (service, user, value)` for
`keyring.set_password(service, user, value)`, `none` for no write. -/
def credentialUpdate (user password : String) (status : Nat) :
    Option (String × String × String) :=
  if status = 200 then some (KEYRING_KEY, user, password)
  else if status = 403 then some (KEYRING_KEY, user, "")
  else none

/-- Everything observable the `cli` function (lines 114-193) decides
from its inputs, after the interactive prompt loops have resolved
`even_url` and the password: the parsed request identity, the resolved
route, the one POST sent by `request_access`, the SSH command rendered
on success, and the keyring key and status-dependent keyring write. -/
structure CliOutcome where
  username : String
  first_host : String
  remote_host : Option String
  posts : List HttpRequest
  sshCmd : String
  credKey : String × String
  credUpdate : Nat → Option (String × String × String)

/-- The `cli` body as a pure function.  `host`, `user`, `insecure`,
`lifetime`, `reason` and `cliOdd` (`--odd-host`) are the command-line
inputs; `config` is the loaded configuration; `even_url` is the service
URL after the `even_url or config.get('even_url')` / prompt loop;
`promptedOdd` is the bastion hostname the prompt loop of lines 153-160
eventually accepts (consulted only when its guard fires, see
`promptLoopOddHost`); `password` is the password after the
`password or keyring or prompt` resolution; `token` is the bearer token
returned by `zign`. -/
def cliRun (host user password even_url : String) (cliOdd : Option String)
    (promptedOdd : String) (insecure : Bool) (lifetime : Option Nat) (reason : String)
    (config : Config) (token : String) : CliOutcome :=
  let parts := pySplit '@' host
  let username := if parts.length > 1 then parts.headD "" else user
  let hostname := parts.getLastD ""
  let cacert := match config.cacert with
    | some b => b
    | none => ! insecure
  let odd_host := pyOr cliOdd config.odd_host
  let odd_host := promptLoopOddHost hostname odd_host promptedOdd
  let url := normalizeEvenUrl even_url
  let route := resolveRoute hostname odd_host
  let first_host := route.1
  let remote_host := route.2
  let body := requestBody username first_host reason remote_host lifetime
  { username := username
    first_host := first_host
    remote_host := remote_host
    posts := [{ url := url, verify := cacert, contentType := "application/json",
                authorization := "Bearer " ++ token, body := body }]
    sshCmd := sshCommand username first_host remote_host
    credKey := (KEYRING_KEY, user)
    credUpdate := fun status => credentialUpdate user password status }

/-! Characterization of `str.split(sep)`: the number of fields, the first
field and the last field. -/

theorem splitChar_cons (sep c : Char) (rest g : List Char) (gs : List (List Char))
    (h : splitChar sep rest = g :: gs) :
    splitChar sep (c :: rest) = if c = sep then [] :: g :: gs else (c :: g) :: gs := by
  simp [splitChar, h]

theorem splitChar_ne_nil (sep : Char) (l : List Char) : splitChar sep l ≠ [] := by
  cases l with
  | nil => simp [splitChar]
  | cons c rest =>
    cases h : splitChar sep rest with
    | nil =>
      simp only [splitChar, h]
      simp
    | cons g gs =>
      rw [splitChar_cons sep c rest g gs h]
      by_cases hc : c = sep <;> simp [hc]

theorem length_splitChar (sep : Char) (l : List Char) :
    (splitChar sep l).length = l.count sep + 1 := by
  induction l with
  | nil => simp [splitChar]
  | cons c rest ih =>
    cases h : splitChar sep rest with
    | nil => exact absurd h (splitChar_ne_nil sep rest)
    | cons g gs =>
      rw [h] at ih
      rw [splitChar_cons sep c rest g gs h]
      by_cases hc : c = sep
      · subst hc
        simp only [List.length_cons] at ih
        simp only [if_pos rfl, List.length_cons, List.count_cons, beq_self_eq_true, if_true]
        omega
      · have hb : (c == sep) = false := by simp [hc]
        simp only [if_neg hc, List.length_cons, List.count_cons, hb, if_false]
        simpa using ih

theorem head?_splitChar (sep : Char) (l : List Char) :
    (splitChar sep l).head? = some (l.takeWhile (fun c => c != sep)) := by
  induction l with
  | nil => simp [splitChar]
  | cons c rest ih =>
    cases h : splitChar sep rest with
    | nil => exact absurd h (splitChar_ne_nil sep rest)
    | cons g gs =>
      rw [h] at ih
      rw [splitChar_cons sep c rest g gs h]
      by_cases hc : c = sep
      · subst hc
        simp [List.takeWhile_cons]
      · have hb : (c != sep) = true := by simp [hc]
        simp only [if_neg hc, List.head?_cons, List.takeWhile_cons, hb, if_pos]
        simp only [List.head?_cons, Option.some.injEq] at ih
        simp [ih]

theorem takeWhile_ne_append_cons (sep : Char) (xs ys : List Char) :
    (xs ++ sep :: ys).takeWhile (fun c => c != sep) = xs.takeWhile (fun c => c != sep) := by
  induction xs with
  | nil => simp [List.takeWhile_cons]
  | cons x xs ih =>
    by_cases hx : x = sep
    · subst hx; simp [List.takeWhile_cons]
    · simp only [List.cons_append, List.takeWhile_cons]
      have hb : (x != sep) = true := by simp [hx]
      simp [hb, ih]

theorem takeWhile_ne_append_of_mem (sep : Char) (xs ys : List Char) (h : sep ∈ xs) :
    (xs ++ ys).takeWhile (fun c => c != sep) = xs.takeWhile (fun c => c != sep) := by
  induction xs with
  | nil => simp at h
  | cons x xs ih =>
    by_cases hx : x = sep
    · subst hx; simp [List.takeWhile_cons]
    · have hmem : sep ∈ xs := by
        rcases List.mem_cons.mp h with h1 | h1
        · exact absurd h1.symm hx
        · exact h1
      simp only [List.cons_append, List.takeWhile_cons]
      have hb : (x != sep) = true := by simp [hx]
      simp [hb, ih hmem]

theorem takeWhile_ne_of_not_mem (sep : Char) (xs : List Char) (h : sep ∉ xs) :
    xs.takeWhile (fun c => c != sep) = xs := by
  rw [List.takeWhile_eq_self_iff]
  intro x hx
  have hne : x ≠ sep := by
    intro he
    exact h (he ▸ hx)
  simp [hne]

theorem getLast?_splitChar (sep : Char) (l : List Char) :
    (splitChar sep l).getLast? =
      some ((l.reverse.takeWhile (fun c => c != sep)).reverse) := by
  induction l with
  | nil => simp [splitChar]
  | cons c rest ih =>
    cases h : splitChar sep rest with
    | nil => exact absurd h (splitChar_ne_nil sep rest)
    | cons g gs =>
      rw [h] at ih
      rw [splitChar_cons sep c rest g gs h]
      by_cases hc : c = sep
      · subst hc
        rw [if_pos rfl, List.getLast?_cons_cons, ih, List.reverse_cons,
            takeWhile_ne_append_cons]
      · rw [if_neg hc]
        cases gs with
        | nil =>
          have hcount : rest.count sep = 0 := by
            have hl := length_splitChar sep rest
            rw [h] at hl
            simpa using hl.symm
          have hmem : sep ∉ rest := List.count_eq_zero.mp hcount
          have hmemrev : sep ∉ rest.reverse := by simpa using hmem
          have hg : g = rest := by
            have := ih
            rw [takeWhile_ne_of_not_mem sep rest.reverse hmemrev] at this
            simpa using this
          rw [hg]
          have hmemc : sep ∉ rest.reverse ++ [c] := by
            intro hm
            rcases List.mem_append.mp hm with hm | hm
            · exact hmemrev hm
            · simp at hm; exact hc hm.symm
          rw [List.reverse_cons, takeWhile_ne_of_not_mem sep _ hmemc]
          simp
        | cons g2 gs2 =>
          have hmem : sep ∈ rest := by
            have hl := length_splitChar sep rest
            rw [h] at hl
            have : 0 < rest.count sep := by simp at hl; omega
            exact List.count_pos_iff.mp this
          have hmemrev : sep ∈ rest.reverse := by simpa using hmem
          rw [List.getLast?_cons_cons, List.reverse_cons,
              takeWhile_ne_append_of_mem sep rest.reverse [c] hmemrev]
          rw [List.getLast?_cons_cons] at ih
          exact ih

/-! Small bridge lemmas between `cliRun` and the standalone definitions. -/

theorem cliRun_username (host user password even_url : String) (cliOdd : Option String)
    (promptedOdd : String) (insecure : Bool) (lifetime : Option Nat) (reason : String)
    (config : Config) (token : String) :
    (cliRun host user password even_url cliOdd promptedOdd insecure lifetime reason config
      token).username = cliUsername host user := rfl

theorem promptLoopOddHost_of_truthy (hostname : String) (odd_host : Option String)
    (promptedOdd : String) (h : truthy odd_host = true) :
    promptLoopOddHost hostname odd_host promptedOdd = odd_host := by
  simp [promptLoopOddHost, bastionPromptRequired, h]

theorem cliUsername_no_at (host user : String) (h : host.toList.count '@' = 0) :
    cliUsername host user = user := by
  unfold cliUsername
  have hl : (pySplit '@' host).length = 1 := by
    simp [pySplit, length_splitChar]
    exact h
  simp [hl]

theorem remote_host_not_mem_body_keys (username hostname reason : String)
    (lifetime : Option Nat) :
    "remote_host" ∉ (requestBody username hostname reason none lifetime).map Prod.fst := by
  by_cases h : truthyNat lifetime <;> simp [requestBody, truthy, h]

theorem resolveRoute_self (hostname : String) (odd : Option String)
    (h : truthy odd = false ∨ odd = some hostname) :
    resolveRoute hostname odd = (hostname, none) := by
  rcases h with h | h
  · simp [resolveRoute, h]
  · subst h
    by_cases ht : truthy (some hostname) <;> simp [resolveRoute, ht]

theorem resolveRoute_odd_target (hostname : String) (odd : Option String)
    (h1 : truthy odd = true) (h2 : odd ≠ some hostname)
    (h3 : startswith hostname "odd-" = true) :
    resolveRoute hostname odd = (hostname, none) := by
  have hne : odd.getD "" ≠ hostname := by
    cases odd with
    | none => simp [truthy] at h1
    | some s =>
      intro he
      exact h2 (by simpa using he)
  simp [resolveRoute, h1, hne, h3]

/-! The claims. -/

/-- C1: after the access request completes, the keyring write is a function
of the HTTP status: on 200 the password used for the request is stored for
the user, on 403 the stored credential is set to the empty string, and on
any other status no keyring write happens. -/
theorem claim_C1_credential_update_by_status
    (host user password even_url : String) (cliOdd : Option String) (promptedOdd : String)
    (insecure : Bool) (lifetime : Option Nat) (reason : String) (config : Config)
    (token : String) (status : Nat) :
    ((cliRun host user password even_url cliOdd promptedOdd insecure lifetime reason config
        token).credUpdate 200 = some (KEYRING_KEY, user, password))
    ∧ ((cliRun host user password even_url cliOdd promptedOdd insecure lifetime reason
        config token).credUpdate 403 = some (KEYRING_KEY, user, ""))
    ∧ (status ≠ 200 → status ≠ 403 →
        (cliRun host user password even_url cliOdd promptedOdd insecure lifetime reason
          config token).credUpdate status = none) := by
  refine ⟨rfl, rfl, ?_⟩
  intro h1 h2
  simp [cliRun, credentialUpdate, h1, h2]

/-- Witness for C1 at a concrete invocation and the non-200/403 status 500. -/
theorem claim_C1_credential_update_by_status_witness :
    (cliRun "deploy@my-host" "alice" "pw" "https://x.example" none "odd.example" false none
      "testing" emptyConfig "tok").credUpdate 500 = none :=
  (claim_C1_credential_update_by_status "deploy@my-host" "alice" "pw" "https://x.example"
    none "odd.example" false none "testing" emptyConfig "tok" 500).2.2 (by decide)
    (by decide)

/-- C5: the POST goes to the normalized URL: a URL already ending in
`/access-requests` is kept, otherwise trailing slashes are stripped and
`/access-requests` is appended; the program issues exactly one POST, and
both `https://x.example/` and `https://x.example/access-requests`
normalize to `https://x.example/access-requests`. -/
theorem claim_C5_url_normalization
    (u host user password : String) (cliOdd : Option String) (promptedOdd : String)
    (insecure : Bool) (lifetime : Option Nat) (reason : String) (config : Config)
    (token : String) :
    (endswith u "/access-requests" = false →
      normalizeEvenUrl u = rstripSlashes u ++ "/access-requests")
    ∧ (endswith u "/access-requests" = true → normalizeEvenUrl u = u)
    ∧ ((cliRun host user password u cliOdd promptedOdd insecure lifetime reason config
        token).posts.length = 1)
    ∧ ((cliRun host user password u cliOdd promptedOdd insecure lifetime reason config
        token).posts.map (fun r => r.url) = [normalizeEvenUrl u])
    ∧ normalizeEvenUrl "https://x.example/" = "https://x.example/access-requests"
    ∧ normalizeEvenUrl "https://x.example/access-requests"
        = "https://x.example/access-requests" := by
  refine ⟨?_, ?_, rfl, rfl, by decide, by decide⟩
  · intro h
    simp [normalizeEvenUrl, h]
  · intro h
    simp [normalizeEvenUrl, h]

/-- Witness for C5 at the two concrete URLs of the claim. -/
theorem claim_C5_url_normalization_witness :
    normalizeEvenUrl "https://x.example/"
        = rstripSlashes "https://x.example/" ++ "/access-requests"
    ∧ normalizeEvenUrl "https://x.example/access-requests"
        = "https://x.example/access-requests" :=
  ⟨(claim_C5_url_normalization "https://x.example/" "h" "u" "p" none "odd.example" false
      none "r" emptyConfig "t").1 (by decide),
   (claim_C5_url_normalization "https://x.example/access-requests" "h" "u" "p" none
      "odd.example" false none "r" emptyConfig "t").2.1 (by decide)⟩

/-- C6: the JSON body always holds exactly `username`, `hostname`,
`reason`, plus `remote_host` only when a remote host was resolved and
`lifetime_minutes` only when a (truthy) lifetime was given; for input
`deploy@my-host`, reason `testing` and no bastion the body is exactly the
three-field object of the claim. -/
theorem claim_C6_request_body_fields
    (username hostname reason : String) (remote_host : Option String)
    (lifetime : Option Nat) :
    ((requestBody username hostname reason remote_host lifetime).map Prod.fst =
      ["username", "hostname", "reason"]
        ++ (if truthy remote_host then ["remote_host"] else [])
        ++ (if truthyNat lifetime then ["lifetime_minutes"] else []))
    ∧ ((cliRun "deploy@my-host" "u" "pw" "https://x.example" none "odd.example" false none
          "testing" emptyConfig "tok").posts.map (fun r => r.body) =
        [[("username", JVal.s "deploy"), ("hostname", JVal.s "my-host"),
          ("reason", JVal.s "testing")]]) := by
  constructor
  · by_cases h1 : truthy remote_host <;> by_cases h2 : truthyNat lifetime <;>
      simp [requestBody, h1, h2]
  · decide

/-- C7 counterexample: a present config file whose contents are malformed
YAML makes `load_config` raise (`yaml.safe_load` is not guarded by any
`try`), rather than return the empty config. -/
theorem claim_C7_load_config_cex :
    load_config (some YamlLoadResult.raiseErr) = Except.error "yaml.YAMLError" := rfl

/-- C7 amended: `load_config` returns the empty config for a missing file
and for a file that parses as YAML but not as a mapping, and returns the
mapping itself otherwise; a file whose contents fail YAML parsing raises
to the caller. -/
theorem claim_C7_load_config_amended (c : Config) :
    load_config none = Except.ok emptyConfig
    ∧ load_config (some YamlLoadResult.nonDict) = Except.ok emptyConfig
    ∧ load_config (some (YamlLoadResult.dict c)) = Except.ok c
    ∧ load_config (some YamlLoadResult.raiseErr) = Except.error "yaml.YAMLError" :=
  ⟨rfl, rfl, rfl, rfl⟩

/-- C8 counterexample: an invocation with `--insecure` whose config file
carries a `cacert` entry performs the POST with TLS verification enabled:
line 138 overwrites `cacert = not insecure` with the config value. -/
theorem claim_C8_insecure_cex :
    (cliRun "myhost" "u" "pw" "https://x.example" none "odd.example" true none "reason"
        { even_url := none, odd_host := none, cacert := some true } "tok").posts.map
      (fun r => r.verify) = [true] := by decide

/-- C8 amended: with `--insecure`, the POST is performed with TLS
verification disabled provided the config file has no `cacert` entry; a
`cacert` entry in the config overrides the flag. -/
theorem claim_C8_insecure_amended
    (host user password even_url : String) (cliOdd : Option String) (promptedOdd : String)
    (lifetime : Option Nat) (reason : String) (config : Config) (token : String)
    (h : config.cacert = none) :
    (cliRun host user password even_url cliOdd promptedOdd true lifetime reason config
      token).posts.map (fun r => r.verify) = [false] := by
  simp [cliRun, h]

/-- Witness for C8 amended: `--insecure` with the empty config yields a
POST with `verify = False`. -/
theorem claim_C8_insecure_amended_witness :
    (cliRun "myhost" "u" "pw" "https://x.example" none "odd.example" true none "reason"
        emptyConfig "tok").posts.map (fun r => r.verify) = [false] :=
  claim_C8_insecure_amended "myhost" "u" "pw" "https://x.example" none "odd.example" none
    "reason" emptyConfig "tok" rfl

/-- C2: routing starts from `first_host = hostname`, `remote_host =
hostname`, a configured bastion replaces `first_host`, and when the two
ends coincide — the bastion `odd_host` holds when routing starts (after
the `or`-resolution of line 137 and the mandatory prompt loop of lines
153-160) is falsy, or equals the target — `remote_host` is cleared, so
the posted body carries no `remote_host` field. -/
theorem claim_C2_remote_cleared_when_equal
    (host user password even_url : String) (cliOdd : Option String) (promptedOdd : String)
    (insecure : Bool) (lifetime : Option Nat) (reason : String) (config : Config)
    (token : String)
    (h : truthy (promptLoopOddHost (cliHostname host) (pyOr cliOdd config.odd_host)
          promptedOdd) = false
        ∨ promptLoopOddHost (cliHostname host) (pyOr cliOdd config.odd_host) promptedOdd
          = some (cliHostname host)) :
    (cliRun host user password even_url cliOdd promptedOdd insecure lifetime reason config
        token).first_host = cliHostname host
    ∧ (cliRun host user password even_url cliOdd promptedOdd insecure lifetime reason
        config token).remote_host = none
    ∧ ∀ r ∈ (cliRun host user password even_url cliOdd promptedOdd insecure lifetime
        reason config token).posts, "remote_host" ∉ r.body.map Prod.fst := by
  have hr : resolveRoute (cliHostname host)
      (promptLoopOddHost (cliHostname host) (pyOr cliOdd config.odd_host) promptedOdd)
      = (cliHostname host, none) := resolveRoute_self _ _ h
  refine ⟨?_, ?_, ?_⟩
  · show (resolveRoute (cliHostname host)
      (promptLoopOddHost (cliHostname host) (pyOr cliOdd config.odd_host)
        promptedOdd)).1 = cliHostname host
    rw [hr]
  · show (resolveRoute (cliHostname host)
      (promptLoopOddHost (cliHostname host) (pyOr cliOdd config.odd_host)
        promptedOdd)).2 = none
    rw [hr]
  · intro r hrr
    simp only [cliRun, List.mem_singleton] at hrr
    subst hrr
    show "remote_host" ∉ (requestBody _ _ _ (resolveRoute (cliHostname host)
      (promptLoopOddHost (cliHostname host) (pyOr cliOdd config.odd_host)
        promptedOdd)).2 _).map Prod.fst
    rw [hr]
    exact remote_host_not_mem_body_keys _ _ _ _

/-- Witness for C2: no bastion configured, non-IP target `my-host`, so
the prompt loop never fires and routing sees no bastion. -/
theorem claim_C2_remote_cleared_when_equal_witness :
    (cliRun "deploy@my-host" "u" "pw" "https://x.example" none "odd.example" false none
      "testing" emptyConfig "tok").remote_host = none :=
  (claim_C2_remote_cleared_when_equal "deploy@my-host" "u" "pw" "https://x.example" none
    "odd.example" false none "testing" emptyConfig "tok" (Or.inl (by decide))).2.1

/-- C3: when a bastion is configured, differs from the target, and the
target hostname begins with `odd-`, the resolver takes the target as the
first hop and clears `remote_host`: the posted body has no `remote_host`
field and the rendered SSH command has no second hop. -/
theorem claim_C3_odd_target_direct
    (host user password even_url : String) (cliOdd : Option String) (promptedOdd : String)
    (insecure : Bool) (lifetime : Option Nat) (reason : String) (config : Config)
    (token : String)
    (h1 : truthy (pyOr cliOdd config.odd_host) = true)
    (h2 : pyOr cliOdd config.odd_host ≠ some (cliHostname host))
    (h3 : startswith (cliHostname host) "odd-" = true) :
    (cliRun host user password even_url cliOdd promptedOdd insecure lifetime reason config
        token).first_host = cliHostname host
    ∧ (cliRun host user password even_url cliOdd promptedOdd insecure lifetime reason
        config token).remote_host = none
    ∧ (∀ r ∈ (cliRun host user password even_url cliOdd promptedOdd insecure lifetime
        reason config token).posts, "remote_host" ∉ r.body.map Prod.fst)
    ∧ (cliRun host user password even_url cliOdd promptedOdd insecure lifetime reason
        config token).sshCmd = "ssh -tA " ++ cliUsername host user ++ "@"
          ++ cliHostname host ++ " " := by
  have hpost : promptLoopOddHost (cliHostname host) (pyOr cliOdd config.odd_host)
      promptedOdd = pyOr cliOdd config.odd_host :=
    promptLoopOddHost_of_truthy _ _ _ h1
  have hr : resolveRoute (cliHostname host)
      (promptLoopOddHost (cliHostname host) (pyOr cliOdd config.odd_host) promptedOdd)
      = (cliHostname host, none) := by
    rw [hpost]
    exact resolveRoute_odd_target _ _ h1 h2 h3
  refine ⟨?_, ?_, ?_, ?_⟩
  · show (resolveRoute (cliHostname host)
      (promptLoopOddHost (cliHostname host) (pyOr cliOdd config.odd_host)
        promptedOdd)).1 = cliHostname host
    rw [hr]
  · show (resolveRoute (cliHostname host)
      (promptLoopOddHost (cliHostname host) (pyOr cliOdd config.odd_host)
        promptedOdd)).2 = none
    rw [hr]
  · intro r hrr
    simp only [cliRun, List.mem_singleton] at hrr
    subst hrr
    show "remote_host" ∉ (requestBody _ _ _ (resolveRoute (cliHostname host)
      (promptLoopOddHost (cliHostname host) (pyOr cliOdd config.odd_host)
        promptedOdd)).2 _).map Prod.fst
    rw [hr]
    exact remote_host_not_mem_body_keys _ _ _ _
  · show sshCommand (cliUsername host user)
      (resolveRoute (cliHostname host)
        (promptLoopOddHost (cliHostname host) (pyOr cliOdd config.odd_host)
          promptedOdd)).1
      (resolveRoute (cliHostname host)
        (promptLoopOddHost (cliHostname host) (pyOr cliOdd config.odd_host)
          promptedOdd)).2 = _
    rw [hr]
    simp [sshCommand, truthy]

/-- Witness for C3: bastion `bastion`, target `odd-target`. -/
theorem claim_C3_odd_target_direct_witness :
    (cliRun "odd-target" "u" "pw" "https://x.example" (some "bastion") "odd.example" false
      none "testing" emptyConfig "tok").remote_host = none ∧
    (cliRun "odd-target" "u" "pw" "https://x.example" (some "bastion") "odd.example" false
      none "testing" emptyConfig "tok").sshCmd = "ssh -tA u@odd-target " := by
  have h := claim_C3_odd_target_direct "odd-target" "u" "pw" "https://x.example"
    (some "bastion") "odd.example" false none "testing" emptyConfig "tok" (by decide)
    (by decide) (by decide)
  exact ⟨h.2.1, h.2.2.2.trans (by decide)⟩

/-- C4: the bastion prompt fires exactly when the hostname is a literal
IP inside 172.31.0.0/16 and no bastion is configured; a hostname that
fails IP parsing never fires it, and an empty `odd_host` string counts as
not configured (both in the prompt guard and in the `or`-resolution with
the config). -/
theorem claim_C4_bastion_prompt_iff (hostname : String) (cliOdd : Option String)
    (config : Config) :
    (bastionPromptRequired hostname (pyOr cliOdd config.odd_host) = true ↔
      ((∃ a, ip_address hostname = some a ∧ inStups a = true)
        ∧ truthy (pyOr cliOdd config.odd_host) = false))
    ∧ (ip_address hostname = none →
        bastionPromptRequired hostname (pyOr cliOdd config.odd_host) = false)
    ∧ bastionPromptRequired hostname (some "") = bastionPromptRequired hostname none
    ∧ pyOr (some "") config.odd_host = config.odd_host := by
  have hempty : truthy (some "") = false := by decide
  refine ⟨?_, ?_, ?_, ?_⟩
  · cases h : ip_address hostname with
    | none => simp [bastionPromptRequired, h]
    | some a =>
      simp [bastionPromptRequired, h]
  · intro h
    simp [bastionPromptRequired, h]
  · simp [bastionPromptRequired, hempty, truthy]
  · simp [pyOr, hempty]

/-- Witness for C4 at a non-IP hostname. -/
theorem claim_C4_bastion_prompt_iff_witness :
    bastionPromptRequired "my-host" (pyOr none emptyConfig.odd_host) = false :=
  (claim_C4_bastion_prompt_iff "my-host" none emptyConfig).2.1 (by decide)

theorem credentialUpdate_key (user password : String) (status : Nat)
    (e : String × String × String) (h : credentialUpdate user password status = some e) :
    e.1 = KEYRING_KEY ∧ e.2.1 = user := by
  unfold credentialUpdate at h
  by_cases h1 : status = 200
  · rw [if_pos h1] at h
    cases h
    exact ⟨rfl, rfl⟩
  · rw [if_neg h1] at h
    by_cases h2 : status = 403
    · rw [if_pos h2] at h
      cases h
      exact ⟨rfl, rfl⟩
    · rw [if_neg h2] at h
      cases h

/-- C9 counterexample: for `HOST = deploy@my-host` with `--user alice`,
the access request is made for username `deploy` but every keyring
operation is keyed by `('piu', 'alice')` — the `-u` user, not the
request's username. -/
theorem claim_C9_keyring_key_cex :
    (cliRun "deploy@my-host" "alice" "pw" "https://x.example" none "odd.example" false
        none "testing" emptyConfig "tok").username = "deploy"
    ∧ (cliRun "deploy@my-host" "alice" "pw" "https://x.example" none "odd.example" false
        none "testing" emptyConfig "tok").credKey = ("piu", "alice")
    ∧ (cliRun "deploy@my-host" "alice" "pw" "https://x.example" none "odd.example" false
        none "testing" emptyConfig "tok").credUpdate 200 = some ("piu", "alice", "pw")
    ∧ (cliRun "deploy@my-host" "alice" "pw" "https://x.example" none "odd.example" false
        none "testing" emptyConfig "tok").credKey.2
      ≠ (cliRun "deploy@my-host" "alice" "pw" "https://x.example" none "odd.example" false
        none "testing" emptyConfig "tok").username := by
  exact ⟨by decide, by decide, by decide, by decide⟩

/-- C9 amended: every credential-store operation (the read key, and the
status-driven write) is keyed by the fixed service identifier `piu`
together with the authentication user (`--user`/`USER`); this coincides
with the access-request username exactly when the HOST argument carries
no `@`. -/
theorem claim_C9_keyring_key_amended
    (host user password even_url : String) (cliOdd : Option String) (promptedOdd : String)
    (insecure : Bool) (lifetime : Option Nat) (reason : String) (config : Config)
    (token : String) (status : Nat) :
    (cliRun host user password even_url cliOdd promptedOdd insecure lifetime reason config
        token).credKey = (KEYRING_KEY, user)
    ∧ (∀ e, (cliRun host user password even_url cliOdd promptedOdd insecure lifetime
        reason config token).credUpdate status = some e →
          e.1 = KEYRING_KEY ∧ e.2.1 = user)
    ∧ (host.toList.count '@' = 0 →
        (cliRun host user password even_url cliOdd promptedOdd insecure lifetime reason
          config token).username = user) := by
  refine ⟨rfl, ?_, ?_⟩
  · intro e he
    exact credentialUpdate_key user password status e he
  · intro h
    rw [cliRun_username]
    exact cliUsername_no_at host user h

/-- Witness for C9 amended at a concrete invocation with an `@`-free HOST. -/
theorem claim_C9_keyring_key_amended_witness :
    (cliRun "my-host" "alice" "pw" "https://x.example" none "odd.example" false none
        "testing" emptyConfig "tok").credKey = (KEYRING_KEY, "alice")
    ∧ (cliRun "my-host" "alice" "pw" "https://x.example" none "odd.example" false none
        "testing" emptyConfig "tok").username = "alice" := by
  have h := claim_C9_keyring_key_amended "my-host" "alice" "pw" "https://x.example" none
    "odd.example" false none "testing" emptyConfig "tok" 200
  exact ⟨h.1, h.2.2 (by decide)⟩

/-- C10: when the HOST argument contains more than one `@`, the username
is the text before the first `@` and the hostname is the text after the
last `@` (everything in between is dropped). -/
theorem claim_C10_multi_at_parsing (host user : String)
    (h : 2 ≤ host.toList.count '@') :
    cliUsername host user = ⟨host.toList.takeWhile (fun c => c != '@')⟩
    ∧ cliHostname host = ⟨(host.toList.reverse.takeWhile (fun c => c != '@')).reverse⟩ := by
  have hlen : (pySplit '@' host).length = host.toList.count '@' + 1 := by
    have := length_splitChar '@' host.toList
    simpa [pySplit] using this
  constructor
  · unfold cliUsername
    have hgt : (pySplit '@' host).length > 1 := by omega
    rw [if_pos hgt]
    have hh : (pySplit '@' host).head? =
        some (⟨host.toList.takeWhile (fun c => c != '@')⟩ : String) := by
      simp [pySplit, head?_splitChar]
    rw [List.headD_eq_head?_getD, hh, Option.getD_some]
  · unfold cliHostname
    have hh : (pySplit '@' host).getLast? =
        some (⟨(host.toList.reverse.takeWhile (fun c => c != '@')).reverse⟩ : String) := by
      simp [pySplit, getLast?_splitChar]
    rw [List.getLastD_eq_getLast?, hh, Option.getD_some]

/-- Witness for C10 at `a@b@c`: username `a`, hostname `c`, `b` dropped. -/
theorem claim_C10_multi_at_parsing_witness :
    cliUsername "a@b@c" "u" = "a" ∧ cliHostname "a@b@c" = "c" := by
  have h := claim_C10_multi_at_parsing "a@b@c" "u" (by decide)
  exact ⟨h.1.trans (by decide), h.2.trans (by decide)⟩

end Piu
